import Mathlib

/-!
Shallow embedding of the `developer-portfolio` repository's infrastructure
code and dependency-update configuration:

* `infrastructure/cdk/bin/infrastructure.ts` — the CDK app entrypoint
  (context parameters, fail-fast validation, stack environment);
* `infrastructure/cdk/lib/infrastructure-stack.ts` — the
  `InfrastructureStack` constructor, embedded as a pure function from the
  synthesis inputs to the resource graph it declares;
* `.github/dependabot.yml` — the dependency-update bot configuration.

Deploy-time-only values (CloudFront distribution id, hosted-zone name
servers, the account pseudo parameter) are modelled symbolically as
`getAtt` tokens on the construct that owns them, exactly as they appear in
the synthesized template; values known at synthesis are literals.
-/

namespace Portfolio

/-- A synthesis-time string value: a concrete literal, a deploy-time token
(an attribute of a named construct, as a `Fn::GetAtt`), or a concatenation
produced by template-string interpolation around a token. -/
inductive CVal where
  | lit : String → CVal
  | getAtt : String → String → CVal
  | cat : CVal → CVal → CVal
deriving DecidableEq, Repr

/-- A bucket lifecycle rule (`lifecycleRules` entry of the website bucket). -/
structure LifecycleRule where
  ruleId : String
  enabled : Bool
  noncurrentVersionExpirationDays : Nat
deriving DecidableEq, Repr

/-- An S3 bucket declaration. `serverAccessLogsBucket = none` means the
server access logs are delivered to this bucket itself (the CDK default
when only a prefix is given). -/
structure Bucket where
  constructId : String
  bucketName : String
  blockPublicAccessAll : Bool
  removalPolicyDestroy : Bool
  autoDeleteObjects : Bool
  versioned : Bool
  lifecycleRules : List LifecycleRule
  serverAccessLogsBucket : Option String
  serverAccessLogsPrefix : Option String
deriving DecidableEq, Repr

/-- The ARN of a bucket with an explicit physical name. -/
def Bucket.bucketArn (b : Bucket) : CVal :=
  .lit ("arn:aws:s3:::" ++ b.bucketName)

/-- The ARN pattern covering the bucket's objects (`arnForObjects`). -/
def Bucket.arnForObjects (b : Bucket) (keyPat : String) : CVal :=
  .lit ("arn:aws:s3:::" ++ b.bucketName ++ "/" ++ keyPat)

/-- The CloudFront origin access control declaration. -/
structure S3OriginAccessControl where
  constructId : String
  description : String
deriving DecidableEq, Repr

/-- The hosted zone resolution: either a fresh zone declared in this stack
(`new route53.HostedZone`) or a reference to an existing zone imported by
its identifier (`route53.HostedZone.fromHostedZoneId`). -/
inductive HostedZoneRef where
  | newZone (constructId : String) (zoneName : String)
  | fromId (constructId : String) (zoneId : String)
deriving DecidableEq, Repr

/-- Certificate validation method (`acm.CertificateValidation.fromDns`). -/
inductive CertificateValidation where
  | fromDns (zone : HostedZoneRef)
deriving DecidableEq, Repr

/-- The ACM certificate declaration. -/
structure Certificate where
  constructId : String
  domainName : String
  subjectAlternativeNames : List String
  validation : CertificateValidation
deriving DecidableEq, Repr

/-- A custom response header injected by the response headers policy. -/
structure CustomHeader where
  header : String
  value : String
  override : Bool
deriving DecidableEq, Repr

/-- The `securityHeadersBehavior` block of the response headers policy. -/
structure SecurityHeadersBehavior where
  hstsAccessControlMaxAgeDays : Nat
  hstsIncludeSubdomains : Bool
  hstsPreload : Bool
  hstsOverride : Bool
  contentTypeOptionsOverride : Bool
  frameOption : String
  frameOptionsOverride : Bool
  referrerPolicy : String
  referrerPolicyOverride : Bool
deriving DecidableEq, Repr

/-- A CloudFront response headers policy declaration. -/
structure ResponseHeadersPolicy where
  constructId : String
  comment : String
  securityHeadersBehavior : SecurityHeadersBehavior
  customHeaders : List CustomHeader
deriving DecidableEq, Repr

/-- `createSecurityHeadersPolicy` of `InfrastructureStack`: the fixed
security-headers policy attached to the distribution's default behavior. -/
def createSecurityHeadersPolicy : ResponseHeadersPolicy :=
  { constructId := "SecurityHeadersPolicy",
    comment := "Security headers for static website",
    securityHeadersBehavior :=
      { hstsAccessControlMaxAgeDays := 365,
        hstsIncludeSubdomains := true,
        hstsPreload := true,
        hstsOverride := true,
        contentTypeOptionsOverride := true,
        frameOption := "DENY",
        frameOptionsOverride := true,
        referrerPolicy := "STRICT_ORIGIN_WHEN_CROSS_ORIGIN",
        referrerPolicyOverride := true },
    customHeaders :=
      [ { header := "X-Content-Type-Options", value := "nosniff", override := true },
        { header := "X-Frame-Options", value := "DENY", override := true },
        { header := "X-XSS-Protection", value := "1; mode=block", override := true },
        { header := "Permissions-Policy",
          value := "geolocation=(), microphone=(), camera=()", override := true } ] }

/-- An HTTP error response remap of the distribution. -/
structure ErrorResponse where
  httpStatus : Nat
  responseHttpStatus : Nat
  responsePagePath : String
  ttlMinutes : Nat
deriving DecidableEq, Repr

/-- The distribution's origin: the website bucket accessed through the
origin access control (`S3BucketOrigin.withOriginAccessControl`). -/
structure OriginConfig where
  bucket : Bucket
  originAccessControl : S3OriginAccessControl
deriving DecidableEq, Repr

/-- The distribution's default cache behavior. -/
structure DefaultBehavior where
  origin : OriginConfig
  viewerProtocolPolicy : String
  allowedMethods : String
  compress : Bool
  cachePolicy : String
  responseHeadersPolicy : ResponseHeadersPolicy
deriving DecidableEq, Repr

/-- The CloudFront distribution declaration. -/
structure Distribution where
  constructId : String
  defaultBehavior : DefaultBehavior
  domainNames : List String
  certificate : Certificate
  priceClass : String
  defaultRootObject : String
  errorResponses : List ErrorResponse
  enableLogging : Bool
  logBucket : Option Bucket
  logFilePrefix : Option String
  logIncludesCookies : Bool
  minimumProtocolVersion : String
  comment : String
deriving DecidableEq, Repr

/-- The distribution's id, known only at deploy time: a token on the
distribution construct. -/
def Distribution.distributionId (d : Distribution) : CVal :=
  .getAtt d.constructId "Id"

/-- The distribution's domain name, known only at deploy time. -/
def Distribution.distributionDomainName (d : Distribution) : CVal :=
  .getAtt d.constructId "DomainName"

/-- The ARN format of a CloudFront distribution in the standard partition:
`arn:aws:cloudfront::ACCOUNT:distribution/ID`, as interpolated by the
bucket resource policy statement in the source. -/
def cloudFrontDistributionArn (account distId : CVal) : CVal :=
  .cat (.lit "arn:aws:cloudfront::")
    (.cat account (.cat (.lit ":distribution/") distId))

/-- The distribution's ARN (`distribution.distributionArn`), which the CDK
derives from the stack account and the distribution id in the standard
partition's ARN format. -/
def Distribution.distributionArn (d : Distribution) (account : CVal) : CVal :=
  cloudFrontDistributionArn account d.distributionId

/-- An IAM policy statement. Conditions are (operator, key, value) triples. -/
structure PolicyStatement where
  sid : Option String
  effectAllow : Bool
  principals : List String
  actions : List String
  resources : List CVal
  conditions : List (String × String × CVal)
deriving DecidableEq, Repr

/-- A Route53 record alias target (`targets.CloudFrontTarget`). -/
inductive RecordTarget where
  | cloudFrontAlias (distribution : Distribution)
deriving DecidableEq, Repr

/-- A Route53 A record declaration. -/
structure ARecord where
  constructId : String
  zone : HostedZoneRef
  recordName : String
  target : RecordTarget
deriving DecidableEq, Repr

/-- An IAM user declaration. -/
structure User where
  constructId : String
  userName : String
deriving DecidableEq, Repr

/-- An IAM policy declaration. -/
structure Policy where
  constructId : String
  statements : List PolicyStatement
deriving DecidableEq, Repr

/-- A CloudFormation output declaration. -/
structure CfnOutput where
  name : String
  value : CVal
  description : String
deriving DecidableEq, Repr

/-- JavaScript truthiness of an optional string: `undefined` and the empty
string are falsy (this is the test `!domainName` performs in the
entrypoint and the tests on `hostedZoneId` perform in the stack). -/
def jsTruthy : Option String → Bool
  | none => false
  | some s => s != ""

/-- The stack's resolved account: the environment's account when given,
otherwise the account pseudo-parameter token. -/
def stackAccount : Option String → CVal
  | some a => .lit a
  | none => .getAtt "AWS" "AccountId"

/-- The resource graph declared by one run of the `InfrastructureStack`
constructor. `decls` records each construct declaration in source order as
a (kind, construct id) pair; the hosted zone entry distinguishes declaring
a new zone from importing an existing one. -/
structure InfrastructureStack where
  account : CVal
  region : String
  crossRegionReferences : Bool
  websiteBucket : Bucket
  websiteBucketPolicy : List PolicyStatement
  originAccessControl : S3OriginAccessControl
  hostedZone : HostedZoneRef
  certificate : Certificate
  distribution : Distribution
  aRecord : ARecord
  wwwARecord : ARecord
  deploymentUser : User
  deploymentPolicy : Policy
  attachedUserPolicies : List (String × String)
  outputs : List CfnOutput
  decls : List (String × String)
deriving DecidableEq, Repr

/-- The body of the `InfrastructureStack` constructor
(`lib/infrastructure-stack.ts`), as the resource graph it declares, given
the props passed from the entrypoint: the domain name, the optional hosted
zone id, and the environment's account and region. -/
def mkInfrastructureStack (domainName : String) (hostedZoneId : Option String)
    (envAccount : Option String) (region : String) : InfrastructureStack :=
  let account := stackAccount envAccount
  let websiteBucket : Bucket :=
    { constructId := "WebsiteBucket",
      bucketName := domainName ++ "-website",
      blockPublicAccessAll := true,
      removalPolicyDestroy := true,
      autoDeleteObjects := true,
      versioned := true,
      lifecycleRules :=
        [{ ruleId := "DeleteOldVersions", enabled := true,
           noncurrentVersionExpirationDays := 30 }],
      serverAccessLogsBucket := none,
      serverAccessLogsPrefix := some "access-logs/" }
  let originAccessControl : S3OriginAccessControl :=
    { constructId := "OriginAccessControl",
      description := "OAC for " ++ domainName }
  let hostedZone : HostedZoneRef :=
    if jsTruthy hostedZoneId then
      .fromId "HostedZone" (hostedZoneId.getD "")
    else
      .newZone "HostedZone" domainName
  let certificate : Certificate :=
    { constructId := "Certificate",
      domainName := domainName,
      subjectAlternativeNames := ["www." ++ domainName],
      validation := .fromDns hostedZone }
  let distribution : Distribution :=
    { constructId := "Distribution",
      defaultBehavior :=
        { origin := { bucket := websiteBucket, originAccessControl := originAccessControl },
          viewerProtocolPolicy := "REDIRECT_TO_HTTPS",
          allowedMethods := "ALLOW_GET_HEAD_OPTIONS",
          compress := true,
          cachePolicy := "CACHING_OPTIMIZED",
          responseHeadersPolicy := createSecurityHeadersPolicy },
      domainNames := [domainName, "www." ++ domainName],
      certificate := certificate,
      priceClass := "PRICE_CLASS_100",
      defaultRootObject := "index.html",
      errorResponses :=
        [ { httpStatus := 404, responseHttpStatus := 404,
            responsePagePath := "/index.html", ttlMinutes := 5 },
          { httpStatus := 403, responseHttpStatus := 404,
            responsePagePath := "/index.html", ttlMinutes := 5 } ],
      enableLogging := true,
      logBucket := some websiteBucket,
      logFilePrefix := some "cloudfront-logs/",
      logIncludesCookies := false,
      minimumProtocolVersion := "TLS_V1_2_2021",
      comment := "CloudFront distribution for " ++ domainName }
  let bucketPolicyStatement : PolicyStatement :=
    { sid := some "AllowCloudFrontServicePrincipal",
      effectAllow := true,
      principals := ["cloudfront.amazonaws.com"],
      actions := ["s3:GetObject"],
      resources := [websiteBucket.arnForObjects "*"],
      conditions :=
        [("StringEquals", "AWS:SourceArn",
          cloudFrontDistributionArn account distribution.distributionId)] }
  let aRecord : ARecord :=
    { constructId := "ARecord", zone := hostedZone,
      recordName := domainName,
      target := .cloudFrontAlias distribution }
  let wwwARecord : ARecord :=
    { constructId := "WwwARecord", zone := hostedZone,
      recordName := "www." ++ domainName,
      target := .cloudFrontAlias distribution }
  let deploymentUser : User :=
    { constructId := "DeploymentUser",
      userName := domainName ++ "-deployment-user" }
  let deploymentPolicy : Policy :=
    { constructId := "DeploymentPolicy",
      statements :=
        [ { sid := none, effectAllow := true, principals := [],
            actions :=
              ["s3:PutObject", "s3:PutObjectAcl", "s3:GetObject",
               "s3:DeleteObject", "s3:ListBucket"],
            resources := [websiteBucket.bucketArn, websiteBucket.arnForObjects "*"],
            conditions := [] },
          { sid := none, effectAllow := true, principals := [],
            actions := ["cloudfront:CreateInvalidation"],
            resources := [distribution.distributionArn account],
            conditions := [] } ] }
  let outputs : List CfnOutput :=
    [ { name := "WebsiteBucketName", value := .lit websiteBucket.bucketName,
        description := "Name of the S3 bucket for website content" },
      { name := "CloudFrontDistributionId", value := distribution.distributionId,
        description := "CloudFront Distribution ID" },
      { name := "CloudFrontDistributionDomainName",
        value := distribution.distributionDomainName,
        description := "CloudFront Distribution Domain Name" },
      { name := "DeploymentUserName", value := .lit deploymentUser.userName,
        description := "Name of the deployment user for GitHub Actions" },
      { name := "WebsiteUrl", value := .lit ("https://" ++ domainName),
        description := "Website URL" } ] ++
    (if jsTruthy hostedZoneId then []
     else
       [{ name := "NameServers",
          value := .getAtt "HostedZone" "NameServers",
          description :=
            "Name servers for the hosted zone (configure these in domain registrar)" }])
  { account := account,
    region := region,
    crossRegionReferences := true,
    websiteBucket := websiteBucket,
    websiteBucketPolicy := [bucketPolicyStatement],
    originAccessControl := originAccessControl,
    hostedZone := hostedZone,
    certificate := certificate,
    distribution := distribution,
    aRecord := aRecord,
    wwwARecord := wwwARecord,
    deploymentUser := deploymentUser,
    deploymentPolicy := deploymentPolicy,
    attachedUserPolicies := [("DeploymentUser", "DeploymentPolicy")],
    outputs := outputs,
    decls :=
      [("Bucket", "WebsiteBucket"),
       ("S3OriginAccessControl", "OriginAccessControl")] ++
      (if jsTruthy hostedZoneId then [("HostedZoneImport", "HostedZone")]
       else [("HostedZoneNew", "HostedZone")]) ++
      [("Certificate", "Certificate"),
       ("ResponseHeadersPolicy", "SecurityHeadersPolicy"),
       ("Distribution", "Distribution"),
       ("ARecord", "ARecord"), ("ARecord", "WwwARecord"),
       ("User", "DeploymentUser"), ("Policy", "DeploymentPolicy")] ++
      outputs.map fun o => ("CfnOutput", o.name) }

/-- The CDK app context read by the entrypoint (`tryGetContext`). -/
structure AppContext where
  domainName : Option String
  hostedZoneId : Option String
deriving DecidableEq, Repr

/-- The process environment read by the entrypoint. -/
structure ProcessEnv where
  cdkDefaultAccount : Option String
deriving DecidableEq, Repr

/-- The error message of the fail-fast domain-name validation. -/
def requiredDomainMsg : String :=
  "domainName context variable is required. Use: cdk deploy -c domainName=example.com"

/-- `bin/infrastructure.ts`: read the `domainName` and `hostedZoneId`
context values; throw before any stack is constructed when `domainName` is
falsy (absent or empty); otherwise construct `InfrastructureStack` with
the account read from `CDK_DEFAULT_ACCOUNT` and the region pinned to
`us-east-1`. -/
def synthApp (ctx : AppContext) (env : ProcessEnv) : Except String InfrastructureStack :=
  let domainName := ctx.domainName
  let hostedZoneId := ctx.hostedZoneId
  if jsTruthy domainName then
    .ok (mkInfrastructureStack (domainName.getD "") hostedZoneId
          env.cdkDefaultAccount "us-east-1")
  else
    .error requiredDomainMsg

/-- A dependabot check schedule. -/
structure Schedule where
  interval : String
deriving DecidableEq, Repr

/-- A dependabot commit-message convention: the `prefix` key and the
optional `include` key. -/
structure CommitMessage where
  messagePrefix : String
  scopeInclude : Option String
deriving DecidableEq, Repr

/-- One entry of the dependabot `updates` list. -/
structure UpdateEntry where
  packageEcosystem : String
  directory : String
  schedule : Schedule
  openPullRequestsLimit : Nat
  reviewers : List String
  assignees : List String
  commitMessage : CommitMessage
deriving DecidableEq, Repr

/-- `.github/dependabot.yml`, version key. -/
def dependabotVersion : Nat := 2

/-- `.github/dependabot.yml`: the `updates` list, in file order. -/
def dependabotUpdates : List UpdateEntry :=
  [ { packageEcosystem := "npm", directory := "/",
      schedule := { interval := "weekly" },
      openPullRequestsLimit := 10,
      reviewers := ["caleb-wells"], assignees := ["caleb-wells"],
      commitMessage := { messagePrefix := "deps", scopeInclude := some "scope" } },
    { packageEcosystem := "npm", directory := "/infrastructure",
      schedule := { interval := "weekly" },
      openPullRequestsLimit := 5,
      reviewers := ["caleb-wells"], assignees := ["caleb-wells"],
      commitMessage := { messagePrefix := "deps(infra)", scopeInclude := some "scope" } },
    { packageEcosystem := "github-actions", directory := "/",
      schedule := { interval := "monthly" },
      openPullRequestsLimit := 3,
      reviewers := ["caleb-wells"], assignees := ["caleb-wells"],
      commitMessage := { messagePrefix := "ci", scopeInclude := none } } ]

/-! ## Helper lemmas -/

/-- An S3 ARN (bucket or object) is never the bare wildcard resource. -/
theorem s3Arn_ne_wildcard (s : String) : "arn:aws:s3:::" ++ s ≠ "*" := by
  intro h
  have hlen := congrArg String.length h
  rw [String.length_append] at hlen
  have h13 : ("arn:aws:s3:::" : String).length = 13 := by decide
  have h1 : ("*" : String).length = 1 := by decide
  omega

/-!  ## Claim theorems -/

/-- C1: for every invocation with the domainName context parameter absent
(undefined or empty), synthesis returns the fail-fast error and constructs
no stack; for every invocation with domainName present, no error is raised
and a stack is produced. -/
theorem synth_fails_fast_without_domainName (ctx : AppContext) (env : ProcessEnv) :
    (jsTruthy ctx.domainName = false →
      synthApp ctx env = .error requiredDomainMsg) ∧
    (jsTruthy ctx.domainName = true → ∃ s, synthApp ctx env = .ok s) := by
  constructor
  · intro h
    simp [synthApp, h]
  · intro h
    exact ⟨mkInfrastructureStack (ctx.domainName.getD "") ctx.hostedZoneId
      env.cdkDefaultAccount "us-east-1", by simp [synthApp, h]⟩

/-- Witness for C1: synthesis with no domainName errors; with
domainName example.com it produces a stack. -/
theorem synth_fails_fast_without_domainName_witness :
    (synthApp { domainName := none, hostedZoneId := none }
        { cdkDefaultAccount := some "111122223333" } = .error requiredDomainMsg) ∧
    (∃ s, synthApp { domainName := some "example.com", hostedZoneId := none }
        { cdkDefaultAccount := some "111122223333" } = .ok s) :=
  ⟨(synth_fails_fast_without_domainName _ _).1 (by decide),
   (synth_fails_fast_without_domainName _ _).2 (by decide)⟩

/-- C2: with no truthy hostedZoneId the stack declares a new hosted zone
named after the domain and emits the NameServers output; with a supplied
hostedZoneId it references that zone by its identifier and emits no
NameServers output. -/
theorem zone_branch_and_nameservers_output (d z : String) (zid a : Option String)
    (r : String) :
    (jsTruthy zid = false →
      (mkInfrastructureStack d zid a r).hostedZone = .newZone "HostedZone" d ∧
      ("HostedZoneNew", "HostedZone") ∈ (mkInfrastructureStack d zid a r).decls ∧
      "NameServers" ∈ (mkInfrastructureStack d zid a r).outputs.map CfnOutput.name) ∧
    (zid = some z → jsTruthy zid = true →
      (mkInfrastructureStack d zid a r).hostedZone = .fromId "HostedZone" z ∧
      "NameServers" ∉ (mkInfrastructureStack d zid a r).outputs.map CfnOutput.name) := by
  constructor
  · intro h
    refine ⟨?_, ?_, ?_⟩ <;> simp [mkInfrastructureStack, h]
  · intro hz h
    subst hz
    refine ⟨?_, ?_⟩ <;> simp [mkInfrastructureStack, h]

/-- Witness for C2: at domain example.com, without a zone id the new zone
and the NameServers output appear; with zone id Z123 the imported zone
reference appears and the NameServers output does not. -/
theorem zone_branch_and_nameservers_output_witness :
    ((mkInfrastructureStack "example.com" none (some "111122223333")
        "us-east-1").hostedZone = .newZone "HostedZone" "example.com" ∧
      ("HostedZoneNew", "HostedZone") ∈
        (mkInfrastructureStack "example.com" none (some "111122223333")
          "us-east-1").decls ∧
      "NameServers" ∈ (mkInfrastructureStack "example.com" none
        (some "111122223333") "us-east-1").outputs.map CfnOutput.name) ∧
    ((mkInfrastructureStack "example.com" (some "Z123") (some "111122223333")
        "us-east-1").hostedZone = .fromId "HostedZone" "Z123" ∧
      "NameServers" ∉ (mkInfrastructureStack "example.com" (some "Z123")
        (some "111122223333") "us-east-1").outputs.map CfnOutput.name) :=
  ⟨(zone_branch_and_nameservers_output "example.com" "Z123" none
      (some "111122223333") "us-east-1").1 (by decide),
   (zone_branch_and_nameservers_output "example.com" "Z123" (some "Z123")
      (some "111122223333") "us-east-1").2 rfl (by decide)⟩

/-- C3: the bucket resource policy is exactly one statement granting the
CloudFront service principal s3:GetObject on the bucket's objects under a
StringEquals condition on AWS:SourceArn whose value is the ARN built from
this stack's own distribution id, and only that distribution id satisfies
the condition. -/
theorem bucket_policy_condition_is_own_distribution (d : String)
    (zid a : Option String) (r : String) :
    (mkInfrastructureStack d zid a r).websiteBucketPolicy =
      [{ sid := some "AllowCloudFrontServicePrincipal",
         effectAllow := true,
         principals := ["cloudfront.amazonaws.com"],
         actions := ["s3:GetObject"],
         resources := [(mkInfrastructureStack d zid a r).websiteBucket.arnForObjects "*"],
         conditions := [("StringEquals", "AWS:SourceArn",
           cloudFrontDistributionArn (mkInfrastructureStack d zid a r).account
             ((mkInfrastructureStack d zid a r).distribution.distributionId))] }] ∧
    (∀ other : CVal,
      cloudFrontDistributionArn (mkInfrastructureStack d zid a r).account other =
        cloudFrontDistributionArn (mkInfrastructureStack d zid a r).account
          ((mkInfrastructureStack d zid a r).distribution.distributionId) →
      other = (mkInfrastructureStack d zid a r).distribution.distributionId) := by
  constructor
  · rfl
  · intro other h
    simpa [cloudFrontDistributionArn] using h

/-- Witness for C3 at domain example.com: the policy statement carries the
source-ARN condition on the stack's own distribution, and an id equal under
the ARN format is the distribution's own id. -/
theorem bucket_policy_condition_is_own_distribution_witness :
    (mkInfrastructureStack "example.com" none (some "111122223333")
        "us-east-1").websiteBucketPolicy =
      [{ sid := some "AllowCloudFrontServicePrincipal",
         effectAllow := true,
         principals := ["cloudfront.amazonaws.com"],
         actions := ["s3:GetObject"],
         resources := [(mkInfrastructureStack "example.com" none
           (some "111122223333") "us-east-1").websiteBucket.arnForObjects "*"],
         conditions := [("StringEquals", "AWS:SourceArn",
           cloudFrontDistributionArn
             (mkInfrastructureStack "example.com" none (some "111122223333")
               "us-east-1").account
             ((mkInfrastructureStack "example.com" none (some "111122223333")
               "us-east-1").distribution.distributionId))] }] ∧
    (CVal.getAtt "Distribution" "Id" =
      (mkInfrastructureStack "example.com" none (some "111122223333")
        "us-east-1").distribution.distributionId) :=
  ⟨(bucket_policy_condition_is_own_distribution "example.com" none
      (some "111122223333") "us-east-1").1,
   (bucket_policy_condition_is_own_distribution "example.com" none
      (some "111122223333") "us-east-1").2 (CVal.getAtt "Distribution" "Id") rfl⟩

/-- C4: the deployment policy has exactly two statements, whose resources
are exactly the website bucket's ARN and its objects ARN and the ARN of
this stack's distribution, and no resource is the wildcard scope. -/
theorem deployment_policy_exact_resources (d : String) (zid a : Option String)
    (r : String) :
    ((mkInfrastructureStack d zid a r).deploymentPolicy.statements.map
        PolicyStatement.resources) =
      [[(mkInfrastructureStack d zid a r).websiteBucket.bucketArn,
        (mkInfrastructureStack d zid a r).websiteBucket.arnForObjects "*"],
       [(mkInfrastructureStack d zid a r).distribution.distributionArn
          (mkInfrastructureStack d zid a r).account]] ∧
    (∀ res : CVal,
      (∃ st ∈ (mkInfrastructureStack d zid a r).deploymentPolicy.statements,
        res ∈ st.resources) → res ≠ CVal.lit "*") := by
  constructor
  · rfl
  · rintro res ⟨st, hst, hres⟩ hstar
    subst hstar
    simp [mkInfrastructureStack] at hst
    rcases hst with h1 | h2
    · subst h1
      simp [Bucket.bucketArn, Bucket.arnForObjects] at hres
      rcases hres with h | h
      · exact s3Arn_ne_wildcard _ h.symm
      · exact s3Arn_ne_wildcard _ h.symm
    · subst h2
      simp [Distribution.distributionArn, cloudFrontDistributionArn,
        Distribution.distributionId] at hres

/-- Witness for C4 at domain example.com: the two statements' resources and
the non-wildcard fact for the first resource. -/
theorem deployment_policy_exact_resources_witness :
    ((mkInfrastructureStack "example.com" none (some "111122223333")
        "us-east-1").deploymentPolicy.statements.map PolicyStatement.resources) =
      [[(mkInfrastructureStack "example.com" none (some "111122223333")
          "us-east-1").websiteBucket.bucketArn,
        (mkInfrastructureStack "example.com" none (some "111122223333")
          "us-east-1").websiteBucket.arnForObjects "*"],
       [(mkInfrastructureStack "example.com" none (some "111122223333")
          "us-east-1").distribution.distributionArn
          (mkInfrastructureStack "example.com" none (some "111122223333")
            "us-east-1").account]] ∧
    CVal.lit "arn:aws:s3:::example.com-website" ≠ CVal.lit "*" :=
  ⟨(deployment_policy_exact_resources "example.com" none (some "111122223333")
      "us-east-1").1,
   (deployment_policy_exact_resources "example.com" none (some "111122223333")
      "us-east-1").2 (CVal.lit "arn:aws:s3:::example.com-website")
     ⟨(mkInfrastructureStack "example.com" none (some "111122223333")
         "us-east-1").deploymentPolicy.statements.head (by decide),
       by decide, by decide⟩⟩

/-- C5: the apex A record is named after the domain, the www A record after
its www subdomain, and both alias to the same distribution, the one created
in this synthesis pass. -/
theorem dns_records_alias_same_distribution (d : String) (zid a : Option String)
    (r : String) :
    (mkInfrastructureStack d zid a r).aRecord.recordName = d ∧
    (mkInfrastructureStack d zid a r).wwwARecord.recordName = "www." ++ d ∧
    (mkInfrastructureStack d zid a r).aRecord.target =
      .cloudFrontAlias (mkInfrastructureStack d zid a r).distribution ∧
    (mkInfrastructureStack d zid a r).wwwARecord.target =
      .cloudFrontAlias (mkInfrastructureStack d zid a r).distribution :=
  ⟨rfl, rfl, rfl, rfl⟩

/-- C6: the dependabot configuration has exactly three entries (root npm,
infrastructure npm, root github-actions), each carrying its own schedule
cadence, open-PR limit, reviewer and assignee lists, and commit-message
convention, and updating any one entry leaves every other entry unchanged. -/
theorem dependabot_three_independent_entries :
    dependabotUpdates.length = 3 ∧
    (dependabotUpdates.map fun e => (e.packageEcosystem, e.directory)) =
      [("npm", "/"), ("npm", "/infrastructure"), ("github-actions", "/")] ∧
    (dependabotUpdates.map fun e =>
        (e.schedule.interval, e.openPullRequestsLimit, e.reviewers, e.assignees,
         e.commitMessage)) =
      [("weekly", 10, ["caleb-wells"], ["caleb-wells"],
        { messagePrefix := "deps", scopeInclude := some "scope" }),
       ("weekly", 5, ["caleb-wells"], ["caleb-wells"],
        { messagePrefix := "deps(infra)", scopeInclude := some "scope" }),
       ("monthly", 3, ["caleb-wells"], ["caleb-wells"],
        { messagePrefix := "ci", scopeInclude := none })] ∧
    (∀ (i j : Nat) (e : UpdateEntry), i ≠ j →
      (dependabotUpdates.set i e)[j]? = dependabotUpdates[j]?) := by
  refine ⟨by decide, by decide, by decide, ?_⟩
  intro i j e hij
  exact List.getElem?_set_ne hij

/-- Witness for C6: the counted and per-entry facts at the concrete
configuration, and independence of entry 1 under an update of entry 0. -/
theorem dependabot_three_independent_entries_witness :
    dependabotUpdates.length = 3 ∧
    ((dependabotUpdates.set 0
        { packageEcosystem := "npm", directory := "/",
          schedule := { interval := "daily" },
          openPullRequestsLimit := 1,
          reviewers := [], assignees := [],
          commitMessage := { messagePrefix := "x", scopeInclude := none } })[1]? =
      dependabotUpdates[1]?) :=
  ⟨dependabot_three_independent_entries.1,
   dependabot_three_independent_entries.2.2.2 0 1 _ (by decide)⟩

/-- C7: for every successful synthesis the stack's account is the value
read from CDK_DEFAULT_ACCOUNT (resolved to the account pseudo parameter
when unset) and its region is the constant us-east-1. -/
theorem stack_env_account_and_region (ctx : AppContext) (env : ProcessEnv)
    (s : InfrastructureStack) (h : synthApp ctx env = .ok s) :
    s.account = stackAccount env.cdkDefaultAccount ∧ s.region = "us-east-1" := by
  unfold synthApp at h
  by_cases ht : jsTruthy ctx.domainName
  · simp [ht] at h
    subst h
    exact ⟨rfl, rfl⟩
  · simp [ht] at h

/-- Witness for C7 at concrete inputs. -/
theorem stack_env_account_and_region_witness :
    (mkInfrastructureStack "example.com" none (some "111122223333")
        "us-east-1").account = stackAccount (some "111122223333") ∧
    (mkInfrastructureStack "example.com" none (some "111122223333")
        "us-east-1").region = "us-east-1" :=
  stack_env_account_and_region
    { domainName := some "example.com", hostedZoneId := none }
    { cdkDefaultAccount := some "111122223333" }
    (mkInfrastructureStack "example.com" none (some "111122223333") "us-east-1")
    rfl

/-- C8: exactly one certificate is declared; its primary domain name is the
supplied domain, its sole subject alternative name is the www subdomain,
and its validation is a DNS challenge against the resolved hosted zone. -/
theorem certificate_unique_and_dns_validated (d : String) (zid a : Option String)
    (r : String) :
    ((mkInfrastructureStack d zid a r).decls.filter
        fun kv => kv.1 == "Certificate").length = 1 ∧
    (mkInfrastructureStack d zid a r).certificate.domainName = d ∧
    (mkInfrastructureStack d zid a r).certificate.subjectAlternativeNames =
      ["www." ++ d] ∧
    (mkInfrastructureStack d zid a r).certificate.validation =
      .fromDns (mkInfrastructureStack d zid a r).hostedZone := by
  refine ⟨?_, rfl, rfl, rfl⟩
  cases ht : jsTruthy zid <;> simp [mkInfrastructureStack, ht]

/-- C9: synthesis is deterministic in the three inputs (domainName,
hostedZoneId, CDK_DEFAULT_ACCOUNT): equal inputs give identical graphs, and
the graph carries the derived names bucketName = domainName-website,
userName = domainName-deployment-user and the https website URL output. -/
theorem synthesis_deterministic (ctx1 ctx2 : AppContext) (env1 env2 : ProcessEnv)
    (hd : ctx1.domainName = ctx2.domainName)
    (hz : ctx1.hostedZoneId = ctx2.hostedZoneId)
    (ha : env1.cdkDefaultAccount = env2.cdkDefaultAccount) :
    synthApp ctx1 env1 = synthApp ctx2 env2 ∧
    (∀ s, synthApp ctx1 env1 = .ok s →
      s.websiteBucket.bucketName = ctx1.domainName.getD "" ++ "-website" ∧
      s.deploymentUser.userName = ctx1.domainName.getD "" ++ "-deployment-user" ∧
      ("WebsiteUrl", CVal.lit ("https://" ++ ctx1.domainName.getD "")) ∈
        s.outputs.map fun o => (o.name, o.value)) := by
  obtain ⟨d1, z1⟩ := ctx1
  obtain ⟨d2, z2⟩ := ctx2
  obtain ⟨a1⟩ := env1
  obtain ⟨a2⟩ := env2
  cases hd
  cases hz
  cases ha
  refine ⟨rfl, ?_⟩
  intro s h
  unfold synthApp at h
  by_cases ht : jsTruthy d1
  · simp [ht] at h
    subst h
    refine ⟨rfl, rfl, ?_⟩
    cases hz2 : jsTruthy z1 <;> simp [mkInfrastructureStack, hz2]
  · simp [ht] at h

/-- Witness for C9 at concrete inputs. -/
theorem synthesis_deterministic_witness :
    synthApp { domainName := some "example.com", hostedZoneId := none }
      { cdkDefaultAccount := some "111122223333" } =
    synthApp { domainName := some "example.com", hostedZoneId := none }
      { cdkDefaultAccount := some "111122223333" } ∧
    ((mkInfrastructureStack "example.com" none (some "111122223333")
        "us-east-1").websiteBucket.bucketName = "example.com" ++ "-website" ∧
      (mkInfrastructureStack "example.com" none (some "111122223333")
        "us-east-1").deploymentUser.userName = "example.com" ++ "-deployment-user" ∧
      ("WebsiteUrl", CVal.lit ("https://" ++ "example.com")) ∈
        (mkInfrastructureStack "example.com" none (some "111122223333")
          "us-east-1").outputs.map fun o => (o.name, o.value)) :=
  ⟨(synthesis_deterministic
      { domainName := some "example.com", hostedZoneId := none }
      { domainName := some "example.com", hostedZoneId := none }
      { cdkDefaultAccount := some "111122223333" }
      { cdkDefaultAccount := some "111122223333" } rfl rfl rfl).1,
   (synthesis_deterministic
      { domainName := some "example.com", hostedZoneId := none }
      { domainName := some "example.com", hostedZoneId := none }
      { cdkDefaultAccount := some "111122223333" }
      { cdkDefaultAccount := some "111122223333" } rfl rfl rfl).2
     (mkInfrastructureStack "example.com" none (some "111122223333") "us-east-1")
     rfl⟩

/-- C10: both log streams target the website bucket itself: the bucket's
server access logs use its own access-logs/ prefix (no separate log
bucket), and the distribution logs to that same bucket under
cloudfront-logs/ with cookie logging disabled. -/
theorem logging_targets_website_bucket (d : String) (zid a : Option String)
    (r : String) :
    (mkInfrastructureStack d zid a r).websiteBucket.serverAccessLogsBucket = none ∧
    (mkInfrastructureStack d zid a r).websiteBucket.serverAccessLogsPrefix =
      some "access-logs/" ∧
    (mkInfrastructureStack d zid a r).distribution.enableLogging = true ∧
    (mkInfrastructureStack d zid a r).distribution.logBucket =
      some (mkInfrastructureStack d zid a r).websiteBucket ∧
    (mkInfrastructureStack d zid a r).distribution.logFilePrefix =
      some "cloudfront-logs/" ∧
    (mkInfrastructureStack d zid a r).distribution.logIncludesCookies = false :=
  ⟨rfl, rfl, rfl, rfl, rfl, rfl⟩

end Portfolio
